import Mathlib

/-!
Verification of the one-shot prompt generator
(`scripts/one_shot_prompt_generator.py`).

The Python script is embedded shallowly:

* Python `str` values are Lean `String` (a wrapper around `List Char`);
  the character-level operations (`strip`, `lower`, whitespace collapsing,
  substring tests) are written out over `List Char`.
* the whitespace-collapsing regex substitution of line 133 becomes `normalize`.
* The question catalogs, keyword table, selector, composer and entry point
  are transcribed definition by definition.
* `json.loads` is external to the repository; `main` therefore takes the
  parse function as an explicit argument (`String → Except String Json`),
  where `Json` models a decoded Python JSON value.  the Python `str()`
  coercion of decoded values is modelled by `pyStr`.
* Process exits are modelled by `Except ExitKind`: `ExitKind.systemExit`
  is `raise SystemExit(msg)`, `ExitKind.valueError` is an uncaught
  `ValueError` (the `isinstance` check at line 212-213 raises a plain
  `ValueError`, which the `except json.JSONDecodeError` clause does not
  catch), and `ExitKind.eofError` is an uncaught `EOFError` from
  `input()`.  In every case the process terminates with a nonzero exit
  status and the composed document is not produced.
* `main` returns the composed prompt document on success; the surrounding
  banner `print` calls do not alter the document and are not modelled.
-/

namespace OneShot

/-- Whitespace characters recognised by the Python method `str.strip()` and by the
regex class `\s` (restricted to ASCII, which covers all fixed
strings of the script). -/
def isSpaceChar (c : Char) : Bool :=
  c == ' ' || c == '\t' || c == '\n' || c == '\r' || c == '\x0b' || c == '\x0c'

/-- Python `text.strip()`: drop leading and trailing whitespace. -/
def stripL (l : List Char) : List Char :=
  ((l.dropWhile isSpaceChar).reverse.dropWhile isSpaceChar).reverse

/-- Replace every maximal run of whitespace by a single `' '`, as
the regex substitution of line 133 does.  The boolean records whether the previous
character was part of a whitespace run already replaced. -/
def collapseL : Bool → List Char → List Char
  | _, [] => []
  | prevSpace, c :: rest =>
    if isSpaceChar c then
      if prevSpace then collapseL true rest
      else ' ' :: collapseL true rest
    else c :: collapseL false rest

/-- Character-level body of `normalize` (line 132-133 of the script). -/
def normalizeL (l : List Char) : List Char := collapseL false (stripL l)

/-- The function `normalize` of lines 132-133: strip, then collapse every
whitespace run to one space. -/
def normalize (s : String) : String := ⟨normalizeL s.data⟩

/-- Python `str.lower()` (ASCII case folding suffices for the catalog
keywords). -/
def lowerS (s : String) : String := ⟨s.data.map Char.toLower⟩

/-- `leadsWith pat l` holds when `pat` is an initial segment of `l`. -/
def leadsWith : List Char → List Char → Bool
  | [], _ => true
  | _ :: _, [] => false
  | p :: ps, h :: hs => p == h && leadsWith ps hs

/-- Substring test on character lists: some suffix of the haystack starts
with the pattern. -/
def containsSubL : List Char → List Char → Bool
  | [], pat => pat.isEmpty
  | h :: t, pat => leadsWith pat (h :: t) || containsSubL t pat

/-- The Python `pat in hay` substring test on strings. -/
def containsSubS (hay pat : String) : Bool := containsSubL hay.data pat.data

/-- The `Question` dataclass: `{key, prompt, hint}`. -/
structure Question where
  key : String
  prompt : String
  hint : String
deriving DecidableEq

/-- `CORE_QUESTIONS` (lines 24-55). -/
def CORE_QUESTIONS : List Question := [
  ⟨"goal", "What should the final deliverable accomplish?",
    "Define success in one sentence."⟩,
  ⟨"audience", "Who is the target user or audience?",
    "Be specific (e.g., junior developers, finance analysts, parents)."⟩,
  ⟨"output_format", "What output format do you want from the AI?",
    "Examples: bullet list, JSON, markdown table, code files."⟩,
  ⟨"constraints", "What hard constraints must be followed?",
    "Include time, budget, stack, legal, style, or platform limits."⟩,
  ⟨"quality_bar", "How should quality be measured?",
    "Define acceptance criteria or test expectations."⟩,
  ⟨"non_goals", "What should explicitly NOT be included?",
    "List boundaries to avoid scope creep."⟩]

/-- `EXTRA_QUESTIONS` (lines 57-78). -/
def EXTRA_QUESTIONS : List Question := [
  ⟨"data_inputs", "What inputs/data should the solution use?",
    "Mention sources, schema, sample records, or allowed assumptions."⟩,
  ⟨"edge_cases", "What edge cases or failure modes must be handled?",
    "Think null values, outages, security, scaling, ambiguous user input."⟩,
  ⟨"tone", "What tone/style should the response use?",
    "Examples: concise technical, friendly coach, executive summary."⟩,
  ⟨"examples", "Do you have examples of ideal output?",
    "Optional but high-leverage."⟩]

/-- `KEYWORDS` (lines 81-86): keyword → supplemental question keys, in
declaration order (Python dicts preserve insertion order). -/
def KEYWORDS : List (String × List String) := [
  ("web", ["ui_framework", "deployment_target"]),
  ("api", ["api_style", "auth_requirements"]),
  ("data", ["data_volume", "privacy_requirements"]),
  ("agent", ["tool_access", "memory_strategy"])]

/-- `KEYWORD_QUESTIONS` (lines 88-129): supplemental key → full question. -/
def KEYWORD_QUESTIONS : List (String × Question) := [
  ("ui_framework", ⟨"ui_framework",
    "Which UI framework or frontend stack should be used?",
    "E.g., React, Vue, Svelte, plain HTML/CSS."⟩),
  ("deployment_target", ⟨"deployment_target",
    "Where will this run in production?",
    "E.g., Vercel, AWS Lambda, on-prem, local desktop."⟩),
  ("api_style", ⟨"api_style",
    "What API style is required?",
    "REST, GraphQL, gRPC, webhook-first, etc."⟩),
  ("auth_requirements", ⟨"auth_requirements",
    "What authentication/authorization requirements exist?",
    "OAuth, API keys, RBAC, SSO, public/no auth."⟩),
  ("data_volume", ⟨"data_volume",
    "What data scale should the system handle?",
    "Approx rows/events/users and expected growth."⟩),
  ("privacy_requirements", ⟨"privacy_requirements",
    "Any compliance or privacy requirements?",
    "PII handling, GDPR, HIPAA, retention limits, audit trails."⟩),
  ("tool_access", ⟨"tool_access",
    "What tools can the agent call?",
    "Browser, filesystem, code interpreter, internal APIs, none."⟩),
  ("memory_strategy", ⟨"memory_strategy",
    "Should the agent maintain memory between sessions?",
    "No memory, short-term only, long-term profile, vector DB, etc."⟩)]

/-- `KEYWORD_QUESTIONS[key]` (line 147).  Every key the selector ever
looks up is one of the eight table keys, so the fallback is unreachable;
Python would raise `KeyError` there. -/
def kwLookup (k : String) : Question :=
  (KEYWORD_QUESTIONS.lookup k).getD ⟨k, "", ""⟩

/-- The `seen` set loop in `choose_keyword_questions` (lines 142-147):
keep the first occurrence of each key. -/
def dedupFirst (seen : List String) : List String → List String
  | [] => []
  | k :: rest =>
    if seen.contains k then dedupFirst seen rest
    else k :: dedupFirst (k :: seen) rest

/-- `choose_keyword_questions` (lines 136-148): lowercase the summary,
collect the keys of every keyword occurring as a substring (in table
order), deduplicate keeping first occurrences, and resolve each key in
`KEYWORD_QUESTIONS`. -/
def choose_keyword_questions (summary : String) : List Question :=
  let summary_l := lowerS summary
  let selected_keys :=
    (KEYWORDS.map (fun p => if containsSubS summary_l p.1 then p.2 else [])).flatten
  (dedupFirst [] selected_keys).map kwLookup

/-- `build_question_set` (lines 151-152). -/
def build_question_set (summary : String) : List Question :=
  CORE_QUESTIONS ++ choose_keyword_questions summary ++ EXTRA_QUESTIONS

/-- A decoded Python JSON value, as produced by `json.loads`. -/
inductive Json where
  | null : Json
  | bool : Bool → Json
  | num : Int → Json
  | str : String → Json
  | arr : List Json → Json
  | obj : List (String × Json) → Json

/-- A single-quote character, used by Python `repr`. -/
def squote : String := ⟨[Char.ofNat 39]⟩

mutual

/-- Python `str()` of a decoded JSON value: strings unchanged, `None`,
`True`/`False`, numbers printed, containers printed with `repr` elements. -/
def pyStr : Json → String
  | .null => "None"
  | .bool b => if b then "True" else "False"
  | .num n => toString n
  | .str s => s
  | .arr l => "[" ++ String.intercalate ", " (pyReprList l) ++ "]"
  | .obj l => "\x7b" ++ String.intercalate ", " (pyReprFields l) ++ "\x7d"

/-- Python `repr()` of a decoded JSON value (string escaping elided). -/
def pyRepr : Json → String
  | .null => "None"
  | .bool b => if b then "True" else "False"
  | .num n => toString n
  | .str s => squote ++ s ++ squote
  | .arr l => "[" ++ String.intercalate ", " (pyReprList l) ++ "]"
  | .obj l => "\x7b" ++ String.intercalate ", " (pyReprFields l) ++ "\x7d"

/-- `repr` of each element of a list. -/
def pyReprList : List Json → List String
  | [] => []
  | j :: t => pyRepr j :: pyReprList t

/-- `repr` of each `key: value` entry of a dict. -/
def pyReprFields : List (String × Json) → List String
  | [] => []
  | (k, j) :: t => (squote ++ k ++ squote ++ ": " ++ pyRepr j) :: pyReprFields t

end

/-- Python `str.strip()` on strings. -/
def pyStrip (s : String) : String := ⟨stripL s.data⟩

/-- `ask_questions` (lines 155-162): one stdin line per question, stripped,
with empty input replaced by the sentinel (`value or "Not specified"`).
Returns `none` when stdin is exhausted (Python: uncaught `EOFError`). -/
def ask_questions : List Question → List String → Option (List (String × String))
  | [], _ => some []
  | _ :: _, [] => none
  | q :: qs, line :: rest =>
    (ask_questions qs rest).map (fun tail =>
      (q.key, if pyStrip line = "" then "Not specified" else pyStrip line) :: tail)

/-- `answers.get(q.key, "Not specified")` followed by `str(...)` when
`answers` is the interactive dict (values are already strings). -/
def getI (a : List (String × String)) (k : String) : String :=
  match a.lookup k with
  | some v => v
  | none => "Not specified"

/-- `str(answers.get(q.key, "Not specified"))` when `answers` is the
decoded batch payload (values are JSON values, coerced by `str()`). -/
def getB (d : List (String × Json)) (k : String) : String :=
  match d.lookup k with
  | some v => pyStr v
  | none => "Not specified"

/-- The `final_answers` dict comprehension (line 220): one entry per
resolved question, in question order, each value normalized. -/
def finalFromGet (questions : List Question) (get : String → String) :
    List (String × String) :=
  questions.map (fun q => (q.key, normalize (get q.key)))

/-- The `f"- {k}: {v}"` lines of the "Clarified Requirements" section,
one per entry of the answer dict, in dict order. -/
def clarifiedLines (answers : List (String × String)) : List String :=
  answers.map (fun kv => "- " ++ kv.1 ++ ": " ++ kv.2)

/-- `compose_prompt` (lines 165-188): the fixed section list joined with
blank lines, with one `- key: value` context line per answer. -/
def compose_prompt (summary : String) (answers : List (String × String)) : String :=
  let context_lines := String.intercalate "\n" (clarifiedLines answers)
  String.intercalate "\n\n" [
    "You are an elite product + engineering execution assistant.",
    "## Project Summary",
    summary,
    "## Clarified Requirements",
    context_lines,
    "## Your Task",
    "Produce the best possible solution for this request in one response.",
    "### Must Do",
    "1. Restate the objective and constraints in a compact spec.",
    "2. Propose an execution plan optimized for speed and quality.",
    "3. Deliver the requested output in the required format.",
    "4. Address edge cases, risks, and trade-offs explicitly.",
    "5. Include validation steps/tests against the quality bar.",
    "6. Respect non-goals and avoid unnecessary scope expansion.",
    "### Output Requirements",
    "- Be concrete and implementation-ready.",
    "- Use assumptions only when unavoidable, and label them clearly.",
    "- If information is missing, provide a \"best default\" and explain why.",
    "- Keep the response efficient, high-signal, and free of fluff."]

/-- How a run of `main` can terminate abnormally: `SystemExit` (raised
explicitly with a message), an uncaught `ValueError`, or an uncaught
`EOFError` from `input()`. -/
inductive ExitKind where
  | systemExit : String → ExitKind
  | valueError : String → ExitKind
  | eofError : ExitKind
deriving DecidableEq

/-- Interactive branch of `main`: run `ask_questions` over stdin and wrap
the resulting dict as a lookup function. -/
def interactiveAnswers (questions : List Question) (stdin : List String) :
    Except ExitKind (String → String) :=
  match ask_questions questions stdin with
  | none => .error .eofError
  | some a => .ok (getI a)

/-- `main` (lines 201-226).  `answersJson` is the `--answers-json`
argument (`none` when absent); `parseJson` is `json.loads`; `stdin` is the
sequence of interactive input lines.  The Python test `if args.answers_json:`
is truthiness, so an empty payload string takes the interactive branch.
On success the composed prompt document is returned. -/
def main (summary : String) (answersJson : Option String)
    (parseJson : String → Except String Json) (stdin : List String) :
    Except ExitKind String :=
  let s := normalize summary
  if s = "" then .error (.systemExit "Summary cannot be empty.")
  else
    let questions := build_question_set s
    let answersGet : Except ExitKind (String → String) :=
      match answersJson with
      | some p =>
        if p = "" then interactiveAnswers questions stdin
        else
          match parseJson p with
          | .error cause =>
            .error (.systemExit ("Invalid JSON for --answers-json: " ++ cause))
          | .ok (.obj d) => .ok (getB d)
          | .ok _ => .error (.valueError "answers-json must decode to an object")
      | none => interactiveAnswers questions stdin
    match answersGet with
    | .error e => .error e
    | .ok get => .ok (compose_prompt s (finalFromGet questions get))

/-! ### Normalization lemmas

`normalize` is `collapseL false ∘ stripL` on the character list.  The key
facts: its output never starts or ends with whitespace, every whitespace
character in it is a single `' '` never followed by another whitespace
character, and any list with those properties is a fixed point. -/

/-- A list does not start with a whitespace character. -/
def headNonSpace : List Char → Bool
  | [] => true
  | c :: _ => !isSpaceChar c

/-- A list does not end with a whitespace character. -/
def lastNonSpace (l : List Char) : Bool := headNonSpace l.reverse

/-- Internal shape of a collapsed list: every whitespace character is `' '`
and is immediately followed by a non-whitespace character. -/
def normOk : List Char → Bool
  | [] => true
  | [c] => !isSpaceChar c
  | c :: d :: rest =>
    (!isSpaceChar c || (c == ' ' && !isSpaceChar d)) && normOk (d :: rest)

theorem headNonSpace_dropWhile (l : List Char) :
    headNonSpace (l.dropWhile isSpaceChar) = true := by
  induction l with
  | nil => rfl
  | cons c t ih =>
    by_cases hc : isSpaceChar c = true
    · simpa [List.dropWhile, hc] using ih
    · simp [List.dropWhile, hc, headNonSpace]

theorem headNonSpace_append_left (l m : List Char)
    (h : headNonSpace (l ++ m) = true) : headNonSpace l = true := by
  cases l with
  | nil => rfl
  | cons c t => simpa [headNonSpace] using h

theorem headNonSpace_append_of_ne_nil (l m : List Char) (h : l ≠ []) :
    headNonSpace (l ++ m) = headNonSpace l := by
  cases l with
  | nil => exact absurd rfl h
  | cons c t => simp [headNonSpace]

theorem lastNonSpace_cons (c : Char) (t : List Char) (h : t ≠ []) :
    lastNonSpace (c :: t) = lastNonSpace t := by
  unfold lastNonSpace
  rw [List.reverse_cons]
  exact headNonSpace_append_of_ne_nil _ _ (by simpa using h)

theorem stripL_headNonSpace (l : List Char) :
    headNonSpace (stripL l) = true := by
  unfold stripL
  have hsplit :
      l.dropWhile isSpaceChar =
        ((l.dropWhile isSpaceChar).reverse.dropWhile isSpaceChar).reverse ++
        ((l.dropWhile isSpaceChar).reverse.takeWhile isSpaceChar).reverse := by
    conv_lhs => rw [← List.reverse_reverse (l.dropWhile isSpaceChar),
      ← List.takeWhile_append_dropWhile (p := isSpaceChar)
        (l := (l.dropWhile isSpaceChar).reverse)]
    rw [List.reverse_append]
  exact headNonSpace_append_left _ _ (hsplit ▸ headNonSpace_dropWhile l)

theorem stripL_lastNonSpace (l : List Char) :
    lastNonSpace (stripL l) = true := by
  unfold lastNonSpace stripL
  rw [List.reverse_reverse]
  exact headNonSpace_dropWhile _

theorem collapseL_headNonSpace (l : List Char)
    (h : headNonSpace l = true) : headNonSpace (collapseL false l) = true := by
  cases l with
  | nil => rfl
  | cons c t =>
    have hc : isSpaceChar c = false := by simpa [headNonSpace] using h
    simp [collapseL, hc, headNonSpace]

theorem collapseL_true_head (l : List Char) (hlast : lastNonSpace l = true)
    (hne : l ≠ []) :
    ∃ d t, collapseL true l = d :: t ∧ isSpaceChar d = false := by
  induction l with
  | nil => exact absurd rfl hne
  | cons c rest ih =>
    by_cases hc : isSpaceChar c = true
    · have hrest : rest ≠ [] := by
        rintro rfl
        simp [lastNonSpace, headNonSpace, hc] at hlast
      have hlast' : lastNonSpace rest = true := by
        rwa [lastNonSpace_cons c rest hrest] at hlast
      obtain ⟨d, t, hdt, hd⟩ := ih hlast' hrest
      exact ⟨d, t, by simp [collapseL, hc, hdt], hd⟩
    · exact ⟨c, collapseL false rest, by simp [collapseL, hc],
        by simpa using hc⟩

theorem normOk_cons_nonspace (c : Char) (t : List Char)
    (hc : isSpaceChar c = false) (ht : normOk t = true) :
    normOk (c :: t) = true := by
  cases t with
  | nil => simp [normOk, hc]
  | cons d rest => simp [normOk, hc, ht]

theorem collapseL_normOk (l : List Char) :
    ∀ b, lastNonSpace l = true → normOk (collapseL b l) = true := by
  induction l with
  | nil => intro b _; rfl
  | cons c rest ih =>
    intro b hlast
    by_cases hc : isSpaceChar c = true
    · have hrest : rest ≠ [] := by
        rintro rfl
        simp [lastNonSpace, headNonSpace, hc] at hlast
      have hlast' : lastNonSpace rest = true := by
        rwa [lastNonSpace_cons c rest hrest] at hlast
      cases b with
      | true => simpa [collapseL, hc] using ih true hlast'
      | false =>
        obtain ⟨d, t, hdt, hd⟩ := collapseL_true_head rest hlast' hrest
        have hnt : normOk (collapseL true rest) = true := ih true hlast'
        rw [hdt] at hnt
        simp [collapseL, hc, hdt, normOk, hd, hnt]
    · have hc' : isSpaceChar c = false := by simpa using hc
      have hrest : normOk (collapseL false rest) = true := by
        rcases Decidable.em (rest = []) with hnil | hne
        · subst hnil; rfl
        · have hlast' : lastNonSpace rest = true := by
            rwa [lastNonSpace_cons c rest hne] at hlast
          exact ih false hlast'
      have := normOk_cons_nonspace c (collapseL false rest) hc' hrest
      simpa [collapseL, hc'] using this

theorem normOk_tail (c : Char) (t : List Char)
    (h : normOk (c :: t) = true) : normOk t = true := by
  cases t with
  | nil => rfl
  | cons d rest =>
    have h' : (isSpaceChar c = false ∨ c = ' ' ∧ isSpaceChar d = false) ∧
        normOk (d :: rest) = true := by simpa [normOk] using h
    exact h'.2

theorem normOk_last (l : List Char) (h : normOk l = true) :
    lastNonSpace l = true := by
  induction l with
  | nil => rfl
  | cons c t ih =>
    cases t with
    | nil =>
      simpa [lastNonSpace, headNonSpace] using (by simpa [normOk] using h)
    | cons d rest =>
      have ht : normOk (d :: rest) = true := normOk_tail c _ h
      rw [lastNonSpace_cons c (d :: rest) (by simp)]
      exact ih ht

theorem normOk_space_head (c : Char) (t : List Char)
    (h : normOk (c :: t) = true) (hc : isSpaceChar c = true) :
    c = ' ' ∧ ∃ d t', t = d :: t' ∧ isSpaceChar d = false := by
  cases t with
  | nil => simp [normOk, hc] at h
  | cons d rest =>
    have h' : (isSpaceChar c = false ∨ c = ' ' ∧ isSpaceChar d = false) ∧
        normOk (d :: rest) = true := by simpa [normOk] using h
    rcases h'.1 with h2 | h2
    · rw [hc] at h2; simp at h2
    · exact ⟨h2.1, d, rest, rfl, h2.2⟩

theorem collapseL_fixed_aux (n : Nat) :
    ∀ l : List Char, l.length ≤ n → normOk l = true → collapseL false l = l := by
  induction n with
  | zero =>
    intro l hl _
    have : l = [] := List.length_eq_zero.mp (Nat.le_zero.mp hl)
    subst this; rfl
  | succ n ih =>
    intro l hl hok
    cases l with
    | nil => rfl
    | cons c t =>
      by_cases hc : isSpaceChar c = true
      · obtain ⟨hce, d, t', ht, hd⟩ := normOk_space_head c t hok hc
        subst ht
        have hok' : normOk t' = true := normOk_tail d _ (normOk_tail c _ hok)
        have hlen : t'.length ≤ n := by
          simp only [List.length_cons] at hl; omega
        have hfix := ih t' hlen hok'
        subst hce
        simp [collapseL, hc, hd, hfix]
      · have hc' : isSpaceChar c = false := by simpa using hc
        have hok' : normOk t = true := normOk_tail c t hok
        have hlen : t.length ≤ n := by
          simp only [List.length_cons] at hl; omega
        simp [collapseL, hc', ih t hlen hok']

theorem collapseL_fixed (l : List Char) (h : normOk l = true) :
    collapseL false l = l :=
  collapseL_fixed_aux l.length l le_rfl h

theorem dropWhile_eq_self_of_headNonSpace (l : List Char)
    (h : headNonSpace l = true) : l.dropWhile isSpaceChar = l := by
  cases l with
  | nil => rfl
  | cons c t =>
    have hc : isSpaceChar c = false := by simpa [headNonSpace] using h
    simp [List.dropWhile, hc]

theorem stripL_fixed (l : List Char) (hh : headNonSpace l = true)
    (hl : lastNonSpace l = true) : stripL l = l := by
  unfold stripL
  rw [dropWhile_eq_self_of_headNonSpace l hh,
    dropWhile_eq_self_of_headNonSpace l.reverse hl, List.reverse_reverse]

theorem normalizeL_headNonSpace (l : List Char) :
    headNonSpace (normalizeL l) = true :=
  collapseL_headNonSpace _ (stripL_headNonSpace l)

theorem normalizeL_normOk (l : List Char) : normOk (normalizeL l) = true :=
  collapseL_normOk (stripL l) false (stripL_lastNonSpace l)

theorem normalizeL_fixed (l : List Char) (hh : headNonSpace l = true)
    (hok : normOk l = true) : normalizeL l = l := by
  unfold normalizeL
  rw [stripL_fixed l hh (normOk_last l hok), collapseL_fixed l hok]

theorem normalizeL_idem (l : List Char) :
    normalizeL (normalizeL l) = normalizeL l :=
  normalizeL_fixed _ (normalizeL_headNonSpace l) (normalizeL_normOk l)

theorem normalize_idem (s : String) : normalize (normalize s) = normalize s :=
  congrArg String.mk (normalizeL_idem s.data)

/-- Membership in a collapsed list: every character is either the
replacement `' '` or a non-whitespace character of the input. -/
theorem mem_collapseL (c : Char) :
    ∀ (b : Bool) (l : List Char), c ∈ collapseL b l →
      c = ' ' ∨ (c ∈ l ∧ isSpaceChar c = false) := by
  intro b l
  induction l generalizing b with
  | nil => intro h; simp [collapseL] at h
  | cons d t ih =>
    intro h
    by_cases hd : isSpaceChar d = true
    · cases b with
      | true =>
        rcases ih true (by simpa [collapseL, hd] using h) with h' | h'
        · exact Or.inl h'
        · exact Or.inr ⟨List.mem_cons_of_mem d h'.1, h'.2⟩
      | false =>
        rcases (by simpa [collapseL, hd] using h : c = ' ' ∨ c ∈ collapseL true t)
          with h' | h'
        · exact Or.inl h'
        · rcases ih true h' with h'' | h''
          · exact Or.inl h''
          · exact Or.inr ⟨List.mem_cons_of_mem d h''.1, h''.2⟩
    · have hd' : isSpaceChar d = false := by simpa using hd
      rcases (by simpa [collapseL, hd'] using h : c = d ∨ c ∈ collapseL false t)
        with h' | h'
      · exact Or.inr ⟨by simp [h'], h' ▸ hd'⟩
      · rcases ih false h' with h'' | h''
        · exact Or.inl h''
        · exact Or.inr ⟨List.mem_cons_of_mem d h''.1, h''.2⟩

theorem newline_not_mem_normalize (s : String) :
    ('\n' : Char) ∉ (normalize s).data := by
  intro hmem
  rcases mem_collapseL '\n' false (stripL s.data) hmem with h | h
  · exact absurd h (by decide)
  · exact absurd h.2 (by decide)

/-! ### Selector lemmas -/

/-- `choose_keyword_questions` written as an explicit chain of the four
keyword tests, obtained by unfolding the concrete `KEYWORDS` table. -/
theorem choose_eq (s : String) :
    choose_keyword_questions s =
      (dedupFirst []
        ((if containsSubS (lowerS s) "web"
            then ["ui_framework", "deployment_target"] else []) ++
         ((if containsSubS (lowerS s) "api"
            then ["api_style", "auth_requirements"] else []) ++
          ((if containsSubS (lowerS s) "data"
            then ["data_volume", "privacy_requirements"] else []) ++
           ((if containsSubS (lowerS s) "agent"
            then ["tool_access", "memory_strategy"] else []) ++ []))))).map kwLookup := rfl

/-! ### Answer-set lemmas -/

theorem lookup_finalFromGet (qs : List Question) (g : String → String)
    (q : Question) (hq : q ∈ qs) :
    List.lookup q.key (finalFromGet qs g) = some (normalize (g q.key)) := by
  induction qs with
  | nil => simp at hq
  | cons q' t ih =>
    rcases List.mem_cons.mp hq with rfl | hmem
    · simp [finalFromGet, List.lookup]
    · by_cases hkey : q.key = q'.key
      · simp [finalFromGet, List.lookup, hkey]
      · have hne : (q.key == q'.key) = false := by
          simpa using hkey
        simpa [finalFromGet, List.lookup, hne] using ih hmem

theorem getB_of_lookup_none (d : List (String × Json)) (k : String)
    (h : d.lookup k = none) : getB d k = "Not specified" := by
  simp [getB, h]

/-! ### Entry-point lemmas

The three paths of `main`: empty summary, malformed payload, successful
batch run. -/

theorem main_empty_summary (summary : String) (aj : Option String)
    (parseJson : String → Except String Json) (stdin : List String)
    (h : normalize summary = "") :
    main summary aj parseJson stdin =
      .error (.systemExit "Summary cannot be empty.") := by
  simp [main, h]

theorem main_batch_ok (summary p : String)
    (parseJson : String → Except String Json) (stdin : List String)
    (d : List (String × Json))
    (hs : normalize summary ≠ "") (hp : p ≠ "")
    (hparse : parseJson p = .ok (.obj d)) :
    main summary (some p) parseJson stdin =
      .ok (compose_prompt (normalize summary)
        (finalFromGet (build_question_set (normalize summary)) (getB d))) := by
  simp [main, hs, hp, hparse]

theorem main_batch_invalid (summary p : String)
    (parseJson : String → Except String Json) (stdin : List String)
    (cause : String)
    (hs : normalize summary ≠ "") (hp : p ≠ "")
    (hparse : parseJson p = .error cause) :
    main summary (some p) parseJson stdin =
      .error (.systemExit ("Invalid JSON for --answers-json: " ++ cause)) := by
  simp [main, hs, hp, hparse]

/-- A decoded JSON value whose top level is a key-value mapping. -/
def Json.isObjB : Json → Bool
  | .obj _ => true
  | _ => false

theorem main_batch_nonobject (summary p : String)
    (parseJson : String → Except String Json) (stdin : List String)
    (v : Json)
    (hs : normalize summary ≠ "") (hp : p ≠ "")
    (hparse : parseJson p = .ok v) (hv : v.isObjB = false) :
    main summary (some p) parseJson stdin =
      .error (.valueError "answers-json must decode to an object") := by
  cases v with
  | obj d => simp [Json.isObjB] at hv
  | null => simp [main, hs, hp, hparse]
  | bool b => simp [main, hs, hp, hparse]
  | num n => simp [main, hs, hp, hparse]
  | str s => simp [main, hs, hp, hparse]
  | arr l => simp [main, hs, hp, hparse]

/-! ### Composer lemmas -/

/-- The composed document decomposes around the "Clarified Requirements"
section: a fixed prefix (containing the summary), the joined context
lines, and a fixed rest. -/
theorem compose_decomp (s : String) (ans : List (String × String)) :
    compose_prompt s ans =
      ("You are an elite product + engineering execution assistant." ++
       "\n\n" ++ "## Project Summary" ++ "\n\n" ++ s ++ "\n\n" ++
       "## Clarified Requirements" ++ "\n\n") ++
      String.intercalate "\n" (clarifiedLines ans) ++
      ("\n\n" ++ "## Your Task" ++ "\n\n" ++
       "Produce the best possible solution for this request in one response." ++
       "\n\n" ++ "### Must Do" ++ "\n\n" ++
       "1. Restate the objective and constraints in a compact spec." ++
       "\n\n" ++ "2. Propose an execution plan optimized for speed and quality." ++
       "\n\n" ++ "3. Deliver the requested output in the required format." ++
       "\n\n" ++ "4. Address edge cases, risks, and trade-offs explicitly." ++
       "\n\n" ++ "5. Include validation steps/tests against the quality bar." ++
       "\n\n" ++ "6. Respect non-goals and avoid unnecessary scope expansion." ++
       "\n\n" ++ "### Output Requirements" ++
       "\n\n" ++ "- Be concrete and implementation-ready." ++
       "\n\n" ++ "- Use assumptions only when unavoidable, and label them clearly." ++
       "\n\n" ++ "- If information is missing, provide a \"best default\" and explain why." ++
       "\n\n" ++ "- Keep the response efficient, high-signal, and free of fluff.") := by
  simp only [compose_prompt, String.intercalate, String.intercalate.go,
    String.append_assoc]

/-! ### Catalog membership lemmas -/

/-- Every question the selector can ever produce, in one list. -/
def ALL_QUESTIONS : List Question :=
  CORE_QUESTIONS ++ (KEYWORD_QUESTIONS.map Prod.snd) ++ EXTRA_QUESTIONS

theorem dedupFirst_subset (seen : List String) (l : List String) :
    ∀ k ∈ dedupFirst seen l, k ∈ l := by
  induction l generalizing seen with
  | nil => intro k hk; simp [dedupFirst] at hk
  | cons a t ih =>
    intro k hk
    by_cases ha : a ∈ seen
    · exact List.mem_cons_of_mem a (ih seen k (by simpa [dedupFirst, ha] using hk))
    · rcases (by simpa [dedupFirst, ha] using hk :
          k = a ∨ k ∈ dedupFirst (a :: seen) t) with rfl | h
      · exact List.mem_cons_self _ _
      · exact List.mem_cons_of_mem a (ih (a :: seen) k h)

theorem mem_if_nil {c : Prop} [Decidable c] {k : String} {xs : List String}
    (h : k ∈ (if c then xs else [])) : k ∈ xs := by
  by_cases hc : c
  · simpa [hc] using h
  · simp [hc] at h

theorem choose_subset_table (s : String) (q : Question)
    (hq : q ∈ choose_keyword_questions s) :
    q ∈ KEYWORD_QUESTIONS.map Prod.snd := by
  rw [choose_eq] at hq
  obtain ⟨k, hk, rfl⟩ := List.mem_map.mp hq
  have hk' := dedupFirst_subset _ _ k hk
  have hk8 : k ∈ ["ui_framework", "deployment_target", "api_style",
      "auth_requirements", "data_volume", "privacy_requirements",
      "tool_access", "memory_strategy"] := by
    simp only [List.append_nil, List.mem_append] at hk'
    rcases hk' with h | h | h | h <;>
      · have := mem_if_nil h
        fin_cases this <;> simp
  fin_cases hk8 <;> decide

theorem key_no_newline (s : String) (q : Question)
    (hq : q ∈ build_question_set s) : ('\n' : Char) ∉ q.key.data := by
  rcases List.mem_append.mp hq with h1 | hextra
  · rcases List.mem_append.mp h1 with hcore | hchoose
    · simp only [CORE_QUESTIONS] at hcore
      fin_cases hcore <;> decide
    · have h8 := choose_subset_table s q hchoose
      simp only [KEYWORD_QUESTIONS, List.map] at h8
      fin_cases h8 <;> decide
  · simp only [EXTRA_QUESTIONS] at hextra
    fin_cases hextra <;> decide

theorem str_data_append (a b : String) : (a ++ b).data = a.data ++ b.data := by
  cases a; cases b; rfl

theorem clarified_line_no_newline (s : String) (d : List (String × Json))
    (line : String)
    (hline : line ∈ clarifiedLines
      (finalFromGet (build_question_set s) (getB d))) :
    ('\n' : Char) ∉ line.data := by
  obtain ⟨kv, hkv, rfl⟩ := List.mem_map.mp hline
  obtain ⟨q, hq, rfl⟩ := List.mem_map.mp hkv
  intro hmem
  rw [str_data_append, str_data_append, str_data_append] at hmem
  simp only [List.mem_append] at hmem
  rcases hmem with ((h | h) | h) | h
  · exact absurd h (by decide)
  · exact absurd h (key_no_newline s q hq)
  · exact absurd h (by decide)
  · exact absurd h (newline_not_mem_normalize _)

/-! ### Claim theorems -/

/-- C8: normalization is idempotent: for every string `s`,
`normalize (normalize s) = normalize s`, where `normalize` collapses every
run of whitespace to a single space and trims leading and trailing
whitespace. -/
theorem claim_normalize_idempotent (s : String) :
    normalize (normalize s) = normalize s :=
  normalize_idem s

/-- C3: whenever the summary argument normalizes to the empty string, the
tool fails with the EmptySummary error (`SystemExit "Summary cannot be
empty."`).  The result does not depend on the payload or on any
interactive input line, so the failure happens before any answer is
requested or collected, and no composed output is produced. -/
theorem claim_empty_summary_fails (summary : String) (aj : Option String)
    (parseJson : String → Except String Json) (stdin : List String)
    (h : normalize summary = "") :
    main summary aj parseJson stdin =
      .error (.systemExit "Summary cannot be empty.") :=
  main_empty_summary summary aj parseJson stdin h

/-- Witness for C3 at the whitespace-only summary `"   "`, with a payload
supplied and interactive input available: the run still fails with the
empty-summary error. -/
theorem claim_empty_summary_fails_witness :
    main "   " (some "x") (fun _ => Except.error "nope") ["line"] =
      .error (.systemExit "Summary cannot be empty.") :=
  claim_empty_summary_fails "   " (some "x") (fun _ => Except.error "nope")
    ["line"] (by decide)

/-- C9: prompt composition is deterministic: two invocations of
`compose_prompt` on identical inputs (summary and answer set) yield
byte-identical documents.  The embedded composer is a pure function of
its two arguments — the source consults no randomness and no external
state — so equal inputs give equal output. -/
theorem claim_compose_deterministic (s₁ s₂ : String)
    (a₁ a₂ : List (String × String)) (h1 : s₁ = s₂) (h2 : a₁ = a₂) :
    compose_prompt s₁ a₁ = compose_prompt s₂ a₂ := by
  rw [h1, h2]

/-- A batch payload answering every question resolved for the summary
`"Build a web API for tracking tasks"` (core, web, api and extra keys). -/
def completePayload : List (String × Json) := [
  ("goal", .str "Track tasks"),
  ("audience", .str "Developers"),
  ("output_format", .str "Code files"),
  ("constraints", .str "Python only"),
  ("quality_bar", .str "Tests pass"),
  ("non_goals", .str "No UI"),
  ("ui_framework", .str "React"),
  ("deployment_target", .str "AWS"),
  ("api_style", .str "REST"),
  ("auth_requirements", .str "API keys"),
  ("data_inputs", .str "Task records"),
  ("edge_cases", .str "Empty lists"),
  ("tone", .str "Concise"),
  ("examples", .str "None")]

/-- Witness for C9 at the concrete scenario of the spec: the summary
`"Build a web API for tracking tasks"` with a complete batch payload
(every resolved key answered); composing twice yields identical output. -/
theorem claim_compose_deterministic_witness :
    (∀ q ∈ build_question_set (normalize "Build a web API for tracking tasks"),
      (completePayload.lookup q.key).isSome = true) ∧
    compose_prompt (normalize "Build a web API for tracking tasks")
        (finalFromGet
          (build_question_set (normalize "Build a web API for tracking tasks"))
          (getB completePayload)) =
      compose_prompt (normalize "Build a web API for tracking tasks")
        (finalFromGet
          (build_question_set (normalize "Build a web API for tracking tasks"))
          (getB completePayload)) :=
  ⟨by decide, claim_compose_deterministic _ _ _ _ rfl rfl⟩

/-- C7: when no recognized keyword of the `KEYWORDS` table occurs in the
summary (case-insensitive substring test), the resolved question sequence
is exactly the core questions followed by the extra questions, with no
supplemental question inserted. -/
theorem claim_no_keyword_questions (s : String)
    (h : ∀ p ∈ KEYWORDS, containsSubS (lowerS s) p.1 = false) :
    build_question_set s = CORE_QUESTIONS ++ EXTRA_QUESTIONS := by
  have hw := h ("web", ["ui_framework", "deployment_target"]) (by simp [KEYWORDS])
  have ha := h ("api", ["api_style", "auth_requirements"]) (by simp [KEYWORDS])
  have hd := h ("data", ["data_volume", "privacy_requirements"]) (by simp [KEYWORDS])
  have hg := h ("agent", ["tool_access", "memory_strategy"]) (by simp [KEYWORDS])
  simp only at hw ha hd hg
  rw [build_question_set, choose_eq, hw, ha, hd, hg]
  simp [dedupFirst]

/-- Witness for C7: the summary `"Build a CLI tool"` contains no
recognized keyword, and its resolved sequence is core then extra. -/
theorem claim_no_keyword_questions_witness :
    build_question_set "Build a CLI tool" = CORE_QUESTIONS ++ EXTRA_QUESTIONS :=
  claim_no_keyword_questions "Build a CLI tool" (by decide)

/-- Counterexample to C1 as stated: in batch mode a key that is present
in the payload with a value that is empty after normalization is NOT
mapped to `"Not specified"` — line 220 only defaults when the key is
absent (`answers.get(q.key, "Not specified")`), so the answer set maps
`"goal"` to the empty string, violating the claimed non-emptiness
post-condition. -/
theorem claim_batch_defaults_counterexample :
    normalize (pyStr (Json.str " ")) = "" ∧
    List.lookup "goal"
      (finalFromGet (build_question_set "hi") (getB [("goal", Json.str " ")])) =
      some "" ∧
    ("" : String) ≠ "Not specified" := by
  refine ⟨rfl, by decide, by decide⟩

/-- Amended C1, per answer-set entry: in batch mode every key of the
resolved question sequence has an entry in the answer set; a key absent
from the payload maps to `"Not specified"`; a key present in the payload
maps to the normalization of the string coercion of its value, which may
be the empty string.  Every stored value is normalized (a fixed point of
`normalize`), but not necessarily non-empty. -/
def BatchAnswerRule (s : String) (d : List (String × Json)) : Prop :=
  ∀ q ∈ build_question_set s,
    List.lookup q.key (finalFromGet (build_question_set s) (getB d)) =
      some (normalize (getB d q.key)) ∧
    (d.lookup q.key = none → normalize (getB d q.key) = "Not specified") ∧
    normalize (normalize (getB d q.key)) = normalize (getB d q.key)

/-- C1 (amended): the batch-mode answer set maps every resolved question
key to a normalized value; missing keys get `"Not specified"`, present
keys get the normalized string coercion of their payload value (possibly
empty). -/
theorem claim_batch_defaults_amended (s : String) (d : List (String × Json)) :
    BatchAnswerRule s d := by
  intro q hq
  refine ⟨lookup_finalFromGet _ _ q hq, ?_, normalize_idem _⟩
  intro hnone
  rw [getB_of_lookup_none d q.key hnone]
  decide

/-- Witness for amended C1 at a concrete summary and a payload that is
missing most resolved keys. -/
theorem claim_batch_defaults_amended_witness :
    BatchAnswerRule "hi" [("goal", Json.str "  Ship  it  ")] :=
  claim_batch_defaults_amended "hi" [("goal", Json.str "  Ship  it  ")]

/-- The two ways the embedded entry point reports a malformed batch
payload: the `SystemExit` for invalid JSON (message naming the nested
parse failure) or the uncaught `ValueError` for a decoded value that is
not a key-value mapping.  Either way the process exits non-zero and no
composed output is produced. -/
def MalformedPayloadExit (e : ExitKind) : Prop :=
  (∃ cause, e = .systemExit ("Invalid JSON for --answers-json: " ++ cause)) ∨
  e = .valueError "answers-json must decode to an object"

/-- Counterexample to C2 as stated: the payload string `""` is supplied
and cannot be parsed as JSON (the modelled `json.loads` rejects it), yet
the tool does not fail: `if args.answers_json:` is a truthiness test, so
the empty payload string falls through to interactive mode and a composed
document is produced. -/
theorem claim_malformed_payload_counterexample :
    (∃ c, (fun _ : String =>
        (Except.error "Expecting value: line 1 column 1 (char 0)" :
          Except String Json)) "" = .error c) ∧
    (main "hi" (some "")
      (fun _ => Except.error "Expecting value: line 1 column 1 (char 0)")
      ["Ship", "Devs", "Markdown", "None", "Tests", "Nothing",
        "Records", "Outages", "Concise", "No"]).isOk = true :=
  ⟨⟨_, rfl⟩, by decide⟩

/-- C2 (amended): for every summary that does not normalize to empty and
every supplied NON-EMPTY payload string that cannot be parsed into a
key-value mapping — invalid JSON, or a non-mapping top-level value such
as an array — the run terminates with an error (non-zero exit, no
composed output) carrying an explanatory message: the nested parse
failure for invalid JSON, or the decode-to-object complaint for a
non-mapping value. -/
theorem claim_malformed_payload_amended (summary p : String)
    (parseJson : String → Except String Json) (stdin : List String)
    (hs : normalize summary ≠ "") (hp : p ≠ "")
    (hbad : (∃ c, parseJson p = .error c) ∨
            (∃ v, parseJson p = .ok v ∧ v.isObjB = false)) :
    ∃ e, main summary (some p) parseJson stdin = .error e ∧
      MalformedPayloadExit e := by
  rcases hbad with ⟨c, hc⟩ | ⟨v, hv, hvo⟩
  · exact ⟨_, main_batch_invalid summary p parseJson stdin c hs hp hc,
      Or.inl ⟨c, rfl⟩⟩
  · exact ⟨_, main_batch_nonobject summary p parseJson stdin v hs hp hv hvo,
      Or.inr rfl⟩

/-- Witness for amended C2: a payload that decodes to a literal array
makes the run fail with the malformed-payload error. -/
theorem claim_malformed_payload_amended_witness :
    ∃ e, main "hi" (some "[1]")
        (fun _ => Except.ok (Json.arr [Json.num 1])) [] = .error e ∧
      MalformedPayloadExit e :=
  claim_malformed_payload_amended "hi" "[1]"
    (fun _ => Except.ok (Json.arr [Json.num 1])) [] (by decide) (by decide)
    (Or.inr ⟨Json.arr [Json.num 1], rfl, rfl⟩)

/-- C4, spelled out: in a successful batch run the "Clarified
Requirements" section of the composed document has exactly one
newline-free line per resolved question, formatted `- <key>: <value>`,
in resolved-question order, with `"Not specified"` as the value of every
key missing from the payload; the section sits between the fixed header
and the "## Your Task" section. -/
def ClarifiedSectionProp (summary p : String)
    (parseJson : String → Except String Json) (stdin : List String)
    (d : List (String × Json)) : Prop :=
  main summary (some p) parseJson stdin =
    .ok (compose_prompt (normalize summary)
      (finalFromGet (build_question_set (normalize summary)) (getB d))) ∧
  clarifiedLines (finalFromGet (build_question_set (normalize summary)) (getB d)) =
    (build_question_set (normalize summary)).map
      (fun q => "- " ++ q.key ++ ": " ++ normalize (getB d q.key)) ∧
  (clarifiedLines
      (finalFromGet (build_question_set (normalize summary)) (getB d))).length =
    (build_question_set (normalize summary)).length ∧
  (∀ q ∈ build_question_set (normalize summary),
    d.lookup q.key = none → normalize (getB d q.key) = "Not specified") ∧
  (∀ line ∈ clarifiedLines
      (finalFromGet (build_question_set (normalize summary)) (getB d)),
    ('\n' : Char) ∉ line.data) ∧
  compose_prompt (normalize summary)
      (finalFromGet (build_question_set (normalize summary)) (getB d)) =
    ("You are an elite product + engineering execution assistant." ++
     "\n\n" ++ "## Project Summary" ++ "\n\n" ++ normalize summary ++ "\n\n" ++
     "## Clarified Requirements" ++ "\n\n") ++
    String.intercalate "\n" (clarifiedLines
      (finalFromGet (build_question_set (normalize summary)) (getB d))) ++
    ("\n\n" ++ "## Your Task" ++ "\n\n" ++
     "Produce the best possible solution for this request in one response." ++
     "\n\n" ++ "### Must Do" ++ "\n\n" ++
     "1. Restate the objective and constraints in a compact spec." ++
     "\n\n" ++ "2. Propose an execution plan optimized for speed and quality." ++
     "\n\n" ++ "3. Deliver the requested output in the required format." ++
     "\n\n" ++ "4. Address edge cases, risks, and trade-offs explicitly." ++
     "\n\n" ++ "5. Include validation steps/tests against the quality bar." ++
     "\n\n" ++ "6. Respect non-goals and avoid unnecessary scope expansion." ++
     "\n\n" ++ "### Output Requirements" ++
     "\n\n" ++ "- Be concrete and implementation-ready." ++
     "\n\n" ++ "- Use assumptions only when unavoidable, and label them clearly." ++
     "\n\n" ++ "- If information is missing, provide a \"best default\" and explain why." ++
     "\n\n" ++ "- Keep the response efficient, high-signal, and free of fluff.")

/-- C4: for every summary (non-empty after normalization) and every batch
payload decoding to a key-value mapping — including one missing some
resolved keys — the "Clarified Requirements" section of the composed document
has one `- <key>: <value>` line per resolved question, in order, with
`"Not specified"` for each missing key. -/
theorem claim_clarified_requirements (summary p : String)
    (parseJson : String → Except String Json) (stdin : List String)
    (d : List (String × Json))
    (hs : normalize summary ≠ "") (hp : p ≠ "")
    (hparse : parseJson p = .ok (.obj d)) :
    ClarifiedSectionProp summary p parseJson stdin d := by
  refine ⟨main_batch_ok summary p parseJson stdin d hs hp hparse, ?_, ?_, ?_, ?_, ?_⟩
  · simp [clarifiedLines, finalFromGet, List.map_map]
  · simp [clarifiedLines, finalFromGet]
  · intro q _ hnone
    rw [getB_of_lookup_none d q.key hnone]
    decide
  · exact fun line hline => clarified_line_no_newline _ d line hline
  · exact compose_decomp _ _

/-- Witness for C4 at the summary `"Build a data pipeline"` (keyword
"data" matched, so 12 questions resolve) and a payload answering only
`"goal"`. -/
theorem claim_clarified_requirements_witness :
    ClarifiedSectionProp "Build a data pipeline" "PAYLOAD"
      (fun _ => Except.ok (Json.obj [("goal", Json.str "ETL")])) []
      [("goal", Json.str "ETL")] :=
  claim_clarified_requirements "Build a data pipeline" "PAYLOAD"
    (fun _ => Except.ok (Json.obj [("goal", Json.str "ETL")])) []
    [("goal", Json.str "ETL")] (by decide) (by decide) rfl

/-- Two batch payloads agree on the resolved question sequence when, for
every resolved key, looking the key up (with the `"Not specified"`
default), coercing with `str()` and normalizing gives the same value. -/
def PayloadAgreement (summary : String) (d₁ d₂ : List (String × Json)) : Prop :=
  ∀ q ∈ build_question_set (normalize summary),
    normalize (getB d₁ q.key) = normalize (getB d₂ q.key)

/-- C10: payload keys outside the resolved question sequence have no
effect: two batch runs whose payloads agree (after string coercion and
normalization) on every resolved key produce identical composed
documents — extra keys are silently ignored and never appear in the
output. -/
theorem claim_extra_keys_ignored (summary p₁ p₂ : String)
    (parseJson : String → Except String Json) (stdin₁ stdin₂ : List String)
    (d₁ d₂ : List (String × Json))
    (hp₁ : p₁ ≠ "") (hp₂ : p₂ ≠ "")
    (h₁ : parseJson p₁ = .ok (.obj d₁)) (h₂ : parseJson p₂ = .ok (.obj d₂))
    (hagree : PayloadAgreement summary d₁ d₂) :
    main summary (some p₁) parseJson stdin₁ =
      main summary (some p₂) parseJson stdin₂ := by
  by_cases hs : normalize summary = ""
  · rw [main_empty_summary _ _ _ _ hs, main_empty_summary _ _ _ _ hs]
  · rw [main_batch_ok _ _ _ _ _ hs hp₁ h₁, main_batch_ok _ _ _ _ _ hs hp₂ h₂]
    have hfinal :
        finalFromGet (build_question_set (normalize summary)) (getB d₁) =
        finalFromGet (build_question_set (normalize summary)) (getB d₂) := by
      unfold finalFromGet
      exact List.map_congr_left (fun q hq => by rw [hagree q hq])
    rw [hfinal]

/-- Witness for C10: the second payload carries an extra key `"zzz"` and
writes `"goal"` with extra whitespace; both runs compose the same
document. -/
theorem claim_extra_keys_ignored_witness :
    main "hi" (some "p1")
      (fun t => if t = "p1" then Except.ok (Json.obj [("goal", Json.str "A")])
        else Except.ok (Json.obj [("goal", Json.str "  A "),
          ("zzz", Json.str "IGNORED")])) [] =
    main "hi" (some "p2")
      (fun t => if t = "p1" then Except.ok (Json.obj [("goal", Json.str "A")])
        else Except.ok (Json.obj [("goal", Json.str "  A "),
          ("zzz", Json.str "IGNORED")])) [] :=
  claim_extra_keys_ignored "hi" "p1" "p2" _ [] []
    [("goal", Json.str "A")]
    [("goal", Json.str "  A "), ("zzz", Json.str "IGNORED")]
    (by decide) (by decide) rfl rfl (by unfold PayloadAgreement; decide)

/-- C6, spelled out: the resolved sequence decomposes as core questions,
then the selected supplemental questions, then extra questions; both
web-related supplemental questions occur exactly once in the whole
sequence, inside the middle (supplemental) segment — hence after all core
questions and before all extra questions. -/
def WebQuestionsProp (s : String) : Prop :=
  build_question_set s =
    CORE_QUESTIONS ++ choose_keyword_questions s ++ EXTRA_QUESTIONS ∧
  (build_question_set s).count (kwLookup "ui_framework") = 1 ∧
  (build_question_set s).count (kwLookup "deployment_target") = 1 ∧
  kwLookup "ui_framework" ∈ choose_keyword_questions s ∧
  kwLookup "deployment_target" ∈ choose_keyword_questions s ∧
  kwLookup "ui_framework" ∉ CORE_QUESTIONS ∧
  kwLookup "deployment_target" ∉ CORE_QUESTIONS ∧
  kwLookup "ui_framework" ∉ EXTRA_QUESTIONS ∧
  kwLookup "deployment_target" ∉ EXTRA_QUESTIONS

/-- C6: every summary containing the keyword `"web"` (case-insensitive
substring) resolves a question sequence containing the two web-related
supplemental questions (`ui_framework`, `deployment_target`), each
exactly once, after all core questions and before all extra questions. -/
theorem claim_web_keyword_questions (s : String)
    (hw : containsSubS (lowerS s) "web" = true) : WebQuestionsProp s := by
  unfold WebQuestionsProp build_question_set
  rw [choose_eq, hw]
  cases ha : containsSubS (lowerS s) "api" <;>
    cases hd : containsSubS (lowerS s) "data" <;>
      cases hg : containsSubS (lowerS s) "agent" <;>
        decide

/-- Witness for C6 at the summary `"My Web shop"` (keyword "web" matched
case-insensitively, no other keyword). -/
theorem claim_web_keyword_questions_witness : WebQuestionsProp "My Web shop" :=
  claim_web_keyword_questions "My Web shop" (by decide)

/-- Keywords of the table occurring in the summary, in table order. -/
def matchedKeywords (s : String) : List String :=
  (KEYWORDS.map Prod.fst).filter (fun kw => containsSubS (lowerS s) kw)

/-- C5, spelled out: each matched keyword contributes its supplemental
questions; the selected keys are the table-ordered, first-occurrence
deduplication of the key lists of the matched keywords; and no key occurs twice
in the selection, nor anywhere in the whole resolved sequence. -/
def MultiKeywordProp (s : String) : Prop :=
  (containsSubS (lowerS s) "web" = true →
    kwLookup "ui_framework" ∈ choose_keyword_questions s ∧
    kwLookup "deployment_target" ∈ choose_keyword_questions s) ∧
  (containsSubS (lowerS s) "api" = true →
    kwLookup "api_style" ∈ choose_keyword_questions s ∧
    kwLookup "auth_requirements" ∈ choose_keyword_questions s) ∧
  (containsSubS (lowerS s) "data" = true →
    kwLookup "data_volume" ∈ choose_keyword_questions s ∧
    kwLookup "privacy_requirements" ∈ choose_keyword_questions s) ∧
  (containsSubS (lowerS s) "agent" = true →
    kwLookup "tool_access" ∈ choose_keyword_questions s ∧
    kwLookup "memory_strategy" ∈ choose_keyword_questions s) ∧
  ((choose_keyword_questions s).map Question.key).Nodup ∧
  ((build_question_set s).map Question.key).Nodup ∧
  (choose_keyword_questions s).map Question.key =
    dedupFirst [] ((KEYWORDS.map (fun p =>
      if containsSubS (lowerS s) p.1 then p.2 else [])).flatten)

/-- C5: for every summary matching at least two keywords, the resolved
sequence contains the supplemental questions of each matched keyword,
deduplicated by key keeping first occurrences, in keyword-table order
(and declared key order within a keyword), with no duplicate keys in the
resolved sequence. -/
theorem claim_multi_keyword_questions (s : String)
    (hm : 2 ≤ (matchedKeywords s).length) : MultiKeywordProp s := by
  unfold MultiKeywordProp build_question_set
  rw [choose_eq]
  simp only [KEYWORDS, List.map_cons, List.map_nil]
  unfold matchedKeywords at hm
  simp only [KEYWORDS, List.map_cons, List.map_nil, List.filter_cons,
    List.filter_nil] at hm
  revert hm
  cases hw : containsSubS (lowerS s) "web" <;>
    cases ha : containsSubS (lowerS s) "api" <;>
      cases hd : containsSubS (lowerS s) "data" <;>
        cases hg : containsSubS (lowerS s) "agent" <;>
          decide

/-- Witness for C5 at the summary `"a web api"` (keywords "web" and
"api" both matched). -/
theorem claim_multi_keyword_questions_witness : MultiKeywordProp "a web api" :=
  claim_multi_keyword_questions "a web api"
    (by unfold matchedKeywords; decide)

end OneShot
